import Mathlib

/-!
# Verification of the Temple Run game engine (`src/core/game_engine.py`)

Shallow embedding of the simulation engine in `GameEngine` (file
`src/core/game_engine.py`).  Python floats are modelled as rationals (`ℚ`),
Python `int` as `ℤ`.  `int(x)` (truncation toward zero) is `pyTrunc`,
`//` (floor division) is `pyFloorDiv`.  The calls to `random` in the spawn
subroutines are modelled by an explicit oracle input per tick (`TickInput`):
whether to spawn, in which lane, and which obstacle type — every combination
the Python code can draw is expressible, and no other.  File I/O
(`load_high_score` / `save_high_score`) is modelled by its in-memory effect on
`state.high_score`; the wall-clock field `last_update` is set but never read
by the engine logic and is omitted.
-/

/-- Python `int(q)` for a rational: truncation toward zero. -/
def pyTrunc (q : ℚ) : ℤ := q.num.tdiv q.den

/-- Python floor division `a // b` on numbers. -/
def pyFloorDiv (a b : ℚ) : ℚ := ((a / b).floor : ℤ)

/-- `Position` dataclass. -/
structure Position where
  x : ℚ
  y : ℚ
  deriving DecidableEq, Repr

/-- `Player` dataclass (the `GameObject` base fields are inlined). -/
structure Player where
  position : Position
  width : ℚ
  height : ℚ
  active : Bool := true
  lane : ℤ := 1
  jumping : Bool := false
  sliding : Bool := false
  jump_height : ℚ := 0
  deriving DecidableEq, Repr

/-- `Obstacle` dataclass (base fields inlined); `obstacle_type` is one of
`"tree"`, `"rock"`, `"pit"` for every obstacle the engine spawns. -/
structure Obstacle where
  position : Position
  width : ℚ
  height : ℚ
  active : Bool := true
  obstacle_type : String
  lane : ℤ
  deriving DecidableEq, Repr

/-- `Coin` dataclass (base fields inlined). -/
structure Coin where
  position : Position
  width : ℚ
  height : ℚ
  active : Bool := true
  collected : Bool := false
  deriving DecidableEq, Repr

/-- `GameState` dataclass with its default field values. -/
structure GameState where
  score : ℤ := 0
  distance : ℤ := 0
  coins_collected : ℤ := 0
  lives : ℤ := 3
  speed_multiplier : ℚ := 1
  game_over : Bool := false
  paused : Bool := false
  high_score : ℤ := 0
  deriving DecidableEq, Repr

/-- The mutable fields of the `GameEngine` object. -/
structure GameEngine where
  state : GameState
  player : Player
  obstacles : List Obstacle
  coins : List Coin
  slide_timer : ℚ
  jump_timer : ℚ
  deriving DecidableEq, Repr

/-! ## Engine constants (`__init__`) -/

def PLAYER_WIDTH : ℚ := 40
def PLAYER_HEIGHT : ℚ := 60
def OBSTACLE_WIDTH : ℚ := 50
def OBSTACLE_HEIGHT : ℚ := 60
def COIN_SIZE : ℚ := 20
def JUMP_HEIGHT : ℚ := 80
def SLIDE_DURATION : ℚ := 1

/-- `self.LANE_POSITIONS[lane]` for `lane ∈ {0,1,2}`; out-of-range indices
would raise in Python and never occur under the engine's lane invariant
(the total function returns a junk value 0 there). -/
def lanePosition (lane : ℤ) : ℚ :=
  if lane = 0 then 150 else if lane = 1 then 300 else if lane = 2 then 450 else 0

/-- `random.choice(['tree', 'rock', 'pit'])`, with the draw as an oracle. -/
def obstacleTypeChoice (i : Fin 3) : String :=
  if i = 0 then "tree" else if i = 1 then "rock" else "pit"

/-! ## Engine operations -/

/-- The player built by `reset_game()`: `Position(300, 400)`, center lane. -/
def initPlayer : Player :=
  { position := { x := 300, y := 400 }
    width := PLAYER_WIDTH
    height := PLAYER_HEIGHT
    lane := 1 }

/-- The engine contents built by `reset_game()`: a default `GameState` (note
that this includes `high_score = 0`), the player at the center lane, empty
collections and zeroed timers. -/
def freshEngine : GameEngine :=
  { state := {}
    player := initPlayer
    obstacles := []
    coins := []
    slide_timer := 0
    jump_timer := 0 }

/-- `reset_game()` overwrites every engine field with the fresh values. -/
def reset_game (_e : GameEngine) : GameEngine := freshEngine

/-- `load_high_score()`: the stored value (if the file exists and parses,
`data.get('high_score', 0)`), else the fall-back 0. -/
def load_high_score (e : GameEngine) (stored : Option ℤ) : GameEngine :=
  { e with state := { e.state with high_score := stored.getD 0 } }

/-- `GameEngine.__init__`: `reset_game()` then `load_high_score()`, with the
external storage content as parameter. -/
def mkEngine (stored : Option ℤ) : GameEngine :=
  load_high_score freshEngine stored

/-- `save_high_score()`: in-memory effect (the file write is external I/O). -/
def save_high_score (st : GameState) : GameState :=
  if st.score > st.high_score then { st with high_score := st.score } else st

/-- `move_player(direction)`. -/
def move_player (e : GameEngine) (direction : String) : GameEngine :=
  if e.state.game_over || e.state.paused then e
  else if direction = "left" ∧ 0 < e.player.lane then
    let lane := e.player.lane - 1
    let pos := { e.player.position with x := lanePosition lane }
    { e with player := { e.player with lane := lane, position := pos } }
  else if direction = "right" ∧ e.player.lane < 2 then
    let lane := e.player.lane + 1
    let pos := { e.player.position with x := lanePosition lane }
    { e with player := { e.player with lane := lane, position := pos } }
  else if direction = "up" ∧ e.player.jumping = false then
    { e with player := { e.player with jumping := true }, jump_timer := 0 }
  else if direction = "down" ∧ e.player.sliding = false then
    { e with player := { e.player with sliding := true }, slide_timer := 0 }
  else e

/-- `_update_player_actions(delta_time)`. -/
def update_player_actions (e : GameEngine) (dt : ℚ) : GameEngine :=
  let e :=
    if e.player.jumping then
      let jt := e.jump_timer + dt
      if jt < 0.5 then
        { e with jump_timer := jt,
                 player := { e.player with jump_height := JUMP_HEIGHT * (jt / 0.5) } }
      else if jt < 1.0 then
        { e with jump_timer := jt,
                 player := { e.player with
                   jump_height := JUMP_HEIGHT * (1 - (jt - 0.5) / 0.5) } }
      else
        { e with jump_timer := 0,
                 player := { e.player with jumping := false, jump_height := 0 } }
    else e
  if e.player.sliding then
    let st := e.slide_timer + dt
    if SLIDE_DURATION ≤ st then
      { e with slide_timer := 0, player := { e.player with sliding := false } }
    else
      { e with slide_timer := st }
  else e

/-- The random draws one tick may consume: `none` models a failed spawn roll,
`some` a successful one together with the uniform lane (and type) draws. -/
structure TickInput where
  dt : ℚ
  spawnObstacle : Option (Fin 3 × Fin 3)
  spawnCoin : Option (Fin 3)
  deriving DecidableEq, Repr

/-- `_spawn_obstacles()` with the random draws made explicit. -/
def spawn_obstacles (e : GameEngine) (s : Option (Fin 3 × Fin 3)) : GameEngine :=
  match s with
  | none => e
  | some (lane, tIdx) =>
    let o : Obstacle :=
      { position := { x := lanePosition lane, y := -50 },
        width := OBSTACLE_WIDTH, height := OBSTACLE_HEIGHT,
        obstacle_type := obstacleTypeChoice tIdx, lane := (lane : ℤ) }
    { e with obstacles := e.obstacles ++ [o] }

/-- `_spawn_coins()` with the random draws made explicit. -/
def spawn_coins (e : GameEngine) (s : Option (Fin 3)) : GameEngine :=
  match s with
  | none => e
  | some lane =>
    let c : Coin :=
      { position := { x := lanePosition lane, y := -30 },
        width := COIN_SIZE, height := COIN_SIZE }
    { e with coins := e.coins ++ [c] }

/-- `_update_obstacles(delta_time)`. -/
def update_obstacles (e : GameEngine) (dt : ℚ) : GameEngine :=
  let speed := 300 * e.state.speed_multiplier
  { e with obstacles := e.obstacles.map fun o =>
      { o with position := { o.position with y := o.position.y + speed * dt } } }

/-- `_update_coins(delta_time)`. -/
def update_coins (e : GameEngine) (dt : ℚ) : GameEngine :=
  let speed := 300 * e.state.speed_multiplier
  { e with coins := e.coins.map fun c =>
      { c with position := { c.position with y := c.position.y + speed * dt } } }

/-- A collision rectangle `(x, y, w, h)`. -/
structure Rect where
  x : ℚ
  y : ℚ
  w : ℚ
  h : ℚ
  deriving DecidableEq, Repr

/-- `_get_player_rect()`. -/
def player_rect (p : Player) : Rect :=
  let y_offset := if p.jumping then p.jump_height else 0
  let height := if p.sliding then pyFloorDiv PLAYER_HEIGHT 2 else PLAYER_HEIGHT
  { x := p.position.x - pyFloorDiv PLAYER_WIDTH 2
    y := p.position.y - height - y_offset
    w := PLAYER_WIDTH
    h := height }

/-- The obstacle rectangle built inside `_check_collisions`. -/
def obstacle_rect (o : Obstacle) : Rect :=
  { x := o.position.x - pyFloorDiv o.width 2
    y := o.position.y - pyFloorDiv o.height 2
    w := o.width
    h := o.height }

/-- The coin rectangle built inside `_check_collisions`. -/
def coin_rect (c : Coin) : Rect :=
  { x := c.position.x - pyFloorDiv c.width 2
    y := c.position.y - pyFloorDiv c.height 2
    w := c.width
    h := c.height }

/-- `_rects_collide(rect1, rect2)`. -/
def rects_collide (r1 r2 : Rect) : Bool :=
  decide (r1.x < r2.x + r2.w ∧ r1.x + r1.w > r2.x ∧
          r1.y < r2.y + r2.h ∧ r1.y + r1.h > r2.y)

/-- `_handle_collision()`. -/
def handle_collision (st : GameState) : GameState :=
  let st := { st with lives := st.lives - 1 }
  if st.lives ≤ 0 then save_high_score { st with game_over := true } else st

/-- The obstacle loop of `_check_collisions`: the player (and hence the player
rectangle) is fixed during the pass, the state is threaded through it; each
obstacle keeps its place in the list, in-place mutation becomes rebuilding. -/
def resolveObstacles (pr : Rect) (p : Player) (st : GameState) :
    List Obstacle → GameState × List Obstacle
  | [] => (st, [])
  | o :: rest =>
    if o.active then
      if rects_collide pr (obstacle_rect o) then
        let st1 :=
          if o.obstacle_type = "pit" ∧ p.jumping = false then
            handle_collision st
          else if (o.obstacle_type = "tree" ∨ o.obstacle_type = "rock") ∧
              p.sliding = false then
            handle_collision st
          else st
        let r := resolveObstacles pr p st1 rest
        (r.1, { o with active := false } :: r.2)
      else
        let r := resolveObstacles pr p st rest
        (r.1, o :: r.2)
    else
      let r := resolveObstacles pr p st rest
      (r.1, o :: r.2)

/-- The coin loop of `_check_collisions`. -/
def resolveCoins (pr : Rect) (st : GameState) :
    List Coin → GameState × List Coin
  | [] => (st, [])
  | c :: rest =>
    if c.collected then
      let r := resolveCoins pr st rest
      (r.1, c :: r.2)
    else if rects_collide pr (coin_rect c) then
      let st1 := { st with coins_collected := st.coins_collected + 1,
                           score := st.score + 50 }
      let r := resolveCoins pr st1 rest
      (r.1, { c with collected := true } :: r.2)
    else
      let r := resolveCoins pr st rest
      (r.1, c :: r.2)

/-- `_check_collisions()`. -/
def check_collisions (e : GameEngine) : GameEngine :=
  let pr := player_rect e.player
  let ro := resolveObstacles pr e.player e.state e.obstacles
  let rc := resolveCoins pr ro.1 e.coins
  { e with state := rc.1, obstacles := ro.2, coins := rc.2 }

/-- `_cleanup_objects()`. -/
def cleanup_objects (e : GameEngine) : GameEngine :=
  { e with obstacles := e.obstacles.filter fun o => decide (o.position.y < 600)
           coins := e.coins.filter fun c => decide (c.position.y < 600) }

/-- `update_game(delta_time)`: one tick. -/
def update_game (e : GameEngine) (inp : TickInput) : GameEngine :=
  if e.state.game_over || e.state.paused then e
  else
    let st := { e.state with
      distance := e.state.distance + pyTrunc (100 * inp.dt * e.state.speed_multiplier)
      score := e.state.score + pyTrunc (10 * inp.dt * e.state.speed_multiplier) }
    let st := { st with
      speed_multiplier := min 3 (1 + (st.distance : ℚ) / 10000) }
    let e := { e with state := st }
    let e := update_player_actions e inp.dt
    let e := spawn_obstacles e inp.spawnObstacle
    let e := spawn_coins e inp.spawnCoin
    let e := update_obstacles e inp.dt
    let e := update_coins e inp.dt
    let e := check_collisions e
    cleanup_objects e

/-- `pause_game()`. -/
def pause_game (e : GameEngine) : GameEngine :=
  { e with state := { e.state with paused := !e.state.paused } }

/-- The dictionary returned by `get_game_objects()`. -/
structure Snapshot where
  player : Player
  obstacles : List Obstacle
  coins : List Coin
  state : GameState
  deriving DecidableEq, Repr

/-- `get_game_objects()`. -/
def get_game_objects (e : GameEngine) : Snapshot :=
  { player := e.player
    obstacles := e.obstacles.filter fun o => o.active
    coins := e.coins.filter fun c => !c.collected
    state := e.state }

/-! ## Drivers: operation sequences -/

/-- One externally triggered engine call (the four mutating entry points). -/
inductive Op where
  | tick (inp : TickInput)
  | move (direction : String)
  | pause
  | reset
  deriving DecidableEq, Repr

/-- Dispatch one operation. -/
def step (e : GameEngine) : Op → GameEngine
  | .tick inp => update_game e inp
  | .move d => move_player e d
  | .pause => pause_game e
  | .reset => reset_game e

/-- Run a sequence of operations. -/
def run (e : GameEngine) (ops : List Op) : GameEngine :=
  ops.foldl step e

/-- An operation with a non-negative tick duration. -/
def validOp : Op → Bool
  | .tick inp => decide (0 ≤ inp.dt)
  | _ => true

/-- An operation that is not `reset`. -/
def notReset : Op → Bool
  | .reset => false
  | _ => true

/-- A run in which four pit obstacles are spawned on top of each other by
four `dt = 0` ticks and then reach the (non-jumping) player together: the
final tick resolves four hits at once. -/
def fourPitTrace : List Op :=
  [ .tick ⟨0, some (1, 2), none⟩, .tick ⟨0, some (1, 2), none⟩,
    .tick ⟨0, some (1, 2), none⟩, .tick ⟨0, some (1, 2), none⟩,
    .tick ⟨1.4, none, none⟩ ]

/-- A run in which a coin is spawned, collected on the second tick, and a
further tick passes after its collection. -/
def coinTrace : List Op :=
  [ .tick ⟨0, none, some 1⟩, .tick ⟨1.2, none, none⟩, .tick ⟨0.01, none, none⟩ ]

/-- The hit test made by the obstacle loop of `_check_collisions`: an active
obstacle whose rectangle overlaps the player rectangle, of type `pit` against
a non-jumping player, or of type `tree`/`rock` against a non-sliding one. -/
def obstacleHit (pr : Rect) (p : Player) (o : Obstacle) : Bool :=
  o.active && rects_collide pr (obstacle_rect o) &&
    ((o.obstacle_type == "pit" && !p.jumping) ||
     ((o.obstacle_type == "tree" || o.obstacle_type == "rock") && !p.sliding))

/-- The collection test made by the coin loop of `_check_collisions`. -/
def coinHit (pr : Rect) (c : Coin) : Bool :=
  !c.collected && rects_collide pr (coin_rect c)

/-- A fresh engine whose player is mid-jump (as right after `move("up")`). -/
def jumpingEngine : GameEngine :=
  { freshEngine with player := { initPlayer with jumping := true } }

/-- The obstacle spawned by the oracle draw `(lane, type) = (1, 2)`:
a pit in the center lane at the spawn height. -/
def pitObstacle : Obstacle :=
  { position := { x := 300, y := -50 }
    width := OBSTACLE_WIDTH
    height := OBSTACLE_HEIGHT
    active := true
    obstacle_type := "pit"
    lane := 1 }

/-- A state that is not game over has at least one life left. -/
def LiveState (st : GameState) : Prop :=
  st.game_over = false → 1 ≤ st.lives

/-- The difficulty invariant: the speed multiplier carries the value the
difficulty-scaling step computes from the current distance, and the distance
is non-negative. -/
def SpeedInv (st : GameState) : Prop :=
  st.speed_multiplier = min 3 (1 + (st.distance : ℚ) / 10000) ∧ 0 ≤ st.distance

/-! ## General lemmas about the engine operations -/

theorem spawn_obstacles_player (e : GameEngine) (s : Option (Fin 3 × Fin 3)) :
    (spawn_obstacles e s).player = e.player := by
  cases s with
  | none => rfl
  | some p => cases p; rfl

theorem spawn_coins_player (e : GameEngine) (s : Option (Fin 3)) :
    (spawn_coins e s).player = e.player := by
  cases s <;> rfl

theorem spawn_obstacles_state (e : GameEngine) (s : Option (Fin 3 × Fin 3)) :
    (spawn_obstacles e s).state = e.state := by
  cases s with
  | none => rfl
  | some p => cases p; rfl

theorem spawn_coins_state (e : GameEngine) (s : Option (Fin 3)) :
    (spawn_coins e s).state = e.state := by
  cases s <;> rfl

theorem spawn_obstacles_timers (e : GameEngine) (s : Option (Fin 3 × Fin 3)) :
    (spawn_obstacles e s).jump_timer = e.jump_timer ∧
    (spawn_obstacles e s).slide_timer = e.slide_timer := by
  cases s with
  | none => exact ⟨rfl, rfl⟩
  | some p => cases p; exact ⟨rfl, rfl⟩

theorem spawn_coins_timers (e : GameEngine) (s : Option (Fin 3)) :
    (spawn_coins e s).jump_timer = e.jump_timer ∧
    (spawn_coins e s).slide_timer = e.slide_timer := by
  cases s <;> exact ⟨rfl, rfl⟩

theorem update_obstacles_player (e : GameEngine) (dt : ℚ) :
    (update_obstacles e dt).player = e.player := rfl

theorem update_coins_player (e : GameEngine) (dt : ℚ) :
    (update_coins e dt).player = e.player := rfl

theorem update_obstacles_state (e : GameEngine) (dt : ℚ) :
    (update_obstacles e dt).state = e.state := rfl

theorem update_coins_state (e : GameEngine) (dt : ℚ) :
    (update_coins e dt).state = e.state := rfl

theorem update_obstacles_timers (e : GameEngine) (dt : ℚ) :
    (update_obstacles e dt).jump_timer = e.jump_timer ∧
    (update_obstacles e dt).slide_timer = e.slide_timer := ⟨rfl, rfl⟩

theorem update_coins_timers (e : GameEngine) (dt : ℚ) :
    (update_coins e dt).jump_timer = e.jump_timer ∧
    (update_coins e dt).slide_timer = e.slide_timer := ⟨rfl, rfl⟩

theorem check_collisions_player (e : GameEngine) :
    (check_collisions e).player = e.player := rfl

theorem check_collisions_timers (e : GameEngine) :
    (check_collisions e).jump_timer = e.jump_timer ∧
    (check_collisions e).slide_timer = e.slide_timer := ⟨rfl, rfl⟩

theorem cleanup_objects_player (e : GameEngine) :
    (cleanup_objects e).player = e.player := rfl

theorem cleanup_objects_state (e : GameEngine) :
    (cleanup_objects e).state = e.state := rfl

theorem cleanup_objects_timers (e : GameEngine) :
    (cleanup_objects e).jump_timer = e.jump_timer ∧
    (cleanup_objects e).slide_timer = e.slide_timer := ⟨rfl, rfl⟩

theorem update_player_actions_state (e : GameEngine) (dt : ℚ) :
    (update_player_actions e dt).state = e.state := by
  simp only [update_player_actions]
  split_ifs <;> rfl

/-- `_handle_collision` changes only `lives`, `game_over` and `high_score`. -/
theorem handle_collision_fields (st : GameState) :
    (handle_collision st).score = st.score ∧
    (handle_collision st).distance = st.distance ∧
    (handle_collision st).coins_collected = st.coins_collected ∧
    (handle_collision st).speed_multiplier = st.speed_multiplier ∧
    (handle_collision st).paused = st.paused ∧
    (handle_collision st).lives = st.lives - 1 := by
  simp only [handle_collision, save_high_score]
  split_ifs <;> simp

/-- After `_handle_collision`, a state that is not game over has at least one
life left (the decrement that empties `lives` always raises `game_over`). -/
theorem handle_collision_live (st : GameState) :
    (handle_collision st).game_over = false → 1 ≤ (handle_collision st).lives := by
  simp only [handle_collision, save_high_score]
  intro h
  split_ifs at h ⊢
  all_goals simp_all
  all_goals omega

/-- The obstacle loop deactivates exactly the active obstacles overlapping the
player rectangle and leaves every other obstacle untouched, in place. -/
theorem resolveObstacles_snd (pr : Rect) (p : Player) (st : GameState)
    (l : List Obstacle) :
    (resolveObstacles pr p st l).2 =
      l.map fun o =>
        if o.active && rects_collide pr (obstacle_rect o) then
          { o with active := false } else o := by
  induction l generalizing st with
  | nil => simp [resolveObstacles]
  | cons o rest ih =>
    simp only [resolveObstacles, List.map_cons]
    by_cases ha : o.active
    · by_cases hc : rects_collide pr (obstacle_rect o)
      · simp [ha, hc, ih]
      · simp [ha, hc, ih]
    · simp [ha, ih]

/-- The branch structure of the obstacle loop body agrees with the single
Boolean hit test `obstacleHit`. -/
theorem obstacleHit_branch (pr : Rect) (p : Player) (st : GameState)
    (o : Obstacle) (ha : o.active = true)
    (hc : rects_collide pr (obstacle_rect o) = true) :
    (if o.obstacle_type = "pit" ∧ p.jumping = false then handle_collision st
     else if (o.obstacle_type = "tree" ∨ o.obstacle_type = "rock") ∧
         p.sliding = false then handle_collision st
     else st) =
    (if obstacleHit pr p o then handle_collision st else st) := by
  simp only [obstacleHit, ha, hc, Bool.true_and, Bool.and_eq_true,
    Bool.or_eq_true, beq_iff_eq, Bool.not_eq_true']
  split_ifs <;> tauto

/-- Exactly the hits of the obstacle loop decrement `lives`, one each. -/
theorem resolveObstacles_lives (pr : Rect) (p : Player) (st : GameState)
    (l : List Obstacle) :
    (resolveObstacles pr p st l).1.lives =
      st.lives - l.countP (obstacleHit pr p) := by
  induction l generalizing st with
  | nil => simp [resolveObstacles]
  | cons o rest ih =>
    by_cases ha : o.active
    · by_cases hc : rects_collide pr (obstacle_rect o)
      · simp only [resolveObstacles, ha, hc, if_true,
          obstacleHit_branch pr p st o ha hc, List.countP_cons]
        by_cases hhit : obstacleHit pr p o
        · rw [if_pos hhit, ih, (handle_collision_fields st).2.2.2.2.2]
          simp only [hhit, if_pos]
          push_cast
          ring
        · rw [if_neg hhit, ih]
          simp [hhit]
      · have hfalse : obstacleHit pr p o = false := by
          simp [obstacleHit, hc]
        simp [resolveObstacles, ha, hc, ih, List.countP_cons, hfalse]
    · have hfalse : obstacleHit pr p o = false := by
        simp [obstacleHit, ha]
      simp [resolveObstacles, ha, ih, List.countP_cons, hfalse]

/-- The obstacle loop leaves `score`, `distance`, `coins_collected`,
`speed_multiplier` and `paused` untouched. -/
theorem resolveObstacles_fields (pr : Rect) (p : Player) (st : GameState)
    (l : List Obstacle) :
    (resolveObstacles pr p st l).1.score = st.score ∧
    (resolveObstacles pr p st l).1.distance = st.distance ∧
    (resolveObstacles pr p st l).1.coins_collected = st.coins_collected ∧
    (resolveObstacles pr p st l).1.speed_multiplier = st.speed_multiplier ∧
    (resolveObstacles pr p st l).1.paused = st.paused := by
  induction l generalizing st with
  | nil => simp [resolveObstacles]
  | cons o rest ih =>
    by_cases ha : o.active
    · by_cases hc : rects_collide pr (obstacle_rect o)
      · simp only [resolveObstacles, ha, hc, if_true,
          obstacleHit_branch pr p st o ha hc]
        by_cases hhit : obstacleHit pr p o
        · rw [if_pos hhit]
          have h1 := handle_collision_fields st
          have h2 := ih (handle_collision st)
          exact ⟨h2.1.trans h1.1, (h2.2.1).trans h1.2.1,
            (h2.2.2.1).trans h1.2.2.1, (h2.2.2.2.1).trans h1.2.2.2.1,
            (h2.2.2.2.2).trans h1.2.2.2.2.1⟩
        · rw [if_neg hhit]
          exact ih st
      · simpa [resolveObstacles, ha, hc] using ih st
    · simpa [resolveObstacles, ha] using ih st

/-- The obstacle loop keeps the state live: if the resulting state is not
game over then at least one life is left, provided the incoming state was
live in the same sense. -/
theorem resolveObstacles_live (pr : Rect) (p : Player) (st : GameState)
    (l : List Obstacle)
    (h : st.game_over = false → 1 ≤ st.lives) :
    (resolveObstacles pr p st l).1.game_over = false →
      1 ≤ (resolveObstacles pr p st l).1.lives := by
  induction l generalizing st with
  | nil => simpa [resolveObstacles] using h
  | cons o rest ih =>
    by_cases ha : o.active
    · by_cases hc : rects_collide pr (obstacle_rect o)
      · simp only [resolveObstacles, ha, hc, if_true,
          obstacleHit_branch pr p st o ha hc]
        by_cases hhit : obstacleHit pr p o
        · rw [if_pos hhit]
          exact ih (handle_collision st) (handle_collision_live st)
        · rw [if_neg hhit]
          exact ih st h
      · simpa [resolveObstacles, ha, hc] using ih st h
    · simpa [resolveObstacles, ha] using ih st h

/-- The coin loop marks exactly the overlapping uncollected coins collected,
in place, and touches no other coin. -/
theorem resolveCoins_snd (pr : Rect) (st : GameState) (l : List Coin) :
    (resolveCoins pr st l).2 =
      l.map fun c => if coinHit pr c then { c with collected := true } else c := by
  induction l generalizing st with
  | nil => simp [resolveCoins]
  | cons c rest ih =>
    by_cases hcol : c.collected
    · simp [resolveCoins, hcol, ih, coinHit]
    · by_cases hc : rects_collide pr (coin_rect c)
      · simp [resolveCoins, hcol, hc, ih, coinHit]
      · simp [resolveCoins, hcol, hc, ih, coinHit]

/-- The coin loop adds one to `coins_collected` and 50 to `score` per
collected coin, and touches no other state field. -/
theorem resolveCoins_fst (pr : Rect) (st : GameState) (l : List Coin) :
    (resolveCoins pr st l).1.coins_collected =
      st.coins_collected + l.countP (coinHit pr) ∧
    (resolveCoins pr st l).1.score = st.score + 50 * l.countP (coinHit pr) ∧
    (resolveCoins pr st l).1.lives = st.lives ∧
    (resolveCoins pr st l).1.game_over = st.game_over ∧
    (resolveCoins pr st l).1.distance = st.distance ∧
    (resolveCoins pr st l).1.speed_multiplier = st.speed_multiplier ∧
    (resolveCoins pr st l).1.paused = st.paused ∧
    (resolveCoins pr st l).1.high_score = st.high_score := by
  induction l generalizing st with
  | nil => simp [resolveCoins]
  | cons c rest ih =>
    by_cases hcol : c.collected
    · have hcf : coinHit pr c = false := by simp [coinHit, hcol]
      simp [resolveCoins, hcol, ih, List.countP_cons, hcf]
    · by_cases hc : rects_collide pr (coin_rect c)
      · have hct : coinHit pr c = true := by simp [coinHit, hcol, hc]
        have := ih { st with coins_collected := st.coins_collected + 1,
                             score := st.score + 50 }
        simp only [resolveCoins, hcol, hc, if_true, if_false,
          Bool.false_eq_true, List.countP_cons, hct] at this ⊢
        refine ⟨?_, ?_, this.2.2.1, this.2.2.2.1, this.2.2.2.2.1,
          this.2.2.2.2.2.1, this.2.2.2.2.2.2.1, this.2.2.2.2.2.2.2⟩
        · rw [this.1]; push_cast; ring
        · rw [this.2.1]; push_cast; ring
      · have hcf : coinHit pr c = false := by simp [coinHit, hc]
        simp [resolveCoins, hcol, hc, ih, List.countP_cons, hcf]

/-- `_check_collisions` on the obstacle side: every active overlapping
obstacle is deactivated in place, nothing else changes in the list. -/
theorem check_collisions_obstacles (e : GameEngine) :
    (check_collisions e).obstacles =
      e.obstacles.map fun o =>
        if o.active && rects_collide (player_rect e.player) (obstacle_rect o) then
          { o with active := false } else o := by
  simpa [check_collisions] using
    resolveObstacles_snd (player_rect e.player) e.player e.state e.obstacles

/-- `_check_collisions` on the coin side: every overlapping uncollected coin
is marked collected in place, nothing else changes in the list. -/
theorem check_collisions_coins (e : GameEngine) :
    (check_collisions e).coins =
      e.coins.map fun c =>
        if coinHit (player_rect e.player) c then
          { c with collected := true } else c := by
  simpa [check_collisions] using
    resolveCoins_snd (player_rect e.player)
      (resolveObstacles (player_rect e.player) e.player e.state e.obstacles).1
      e.coins

/-- Effect of `_check_collisions` on the state fields. -/
theorem check_collisions_state (e : GameEngine) :
    (check_collisions e).state.lives =
      e.state.lives - e.obstacles.countP (obstacleHit (player_rect e.player) e.player) ∧
    (check_collisions e).state.coins_collected =
      e.state.coins_collected + e.coins.countP (coinHit (player_rect e.player)) ∧
    (check_collisions e).state.score =
      e.state.score + 50 * e.coins.countP (coinHit (player_rect e.player)) ∧
    (check_collisions e).state.distance = e.state.distance ∧
    (check_collisions e).state.speed_multiplier = e.state.speed_multiplier ∧
    (check_collisions e).state.paused = e.state.paused := by
  have hobs := resolveObstacles_fields (player_rect e.player) e.player e.state e.obstacles
  have hlives := resolveObstacles_lives (player_rect e.player) e.player e.state e.obstacles
  have hcoins := resolveCoins_fst (player_rect e.player)
    (resolveObstacles (player_rect e.player) e.player e.state e.obstacles).1 e.coins
  refine ⟨?_, ?_, ?_, ?_, ?_, ?_⟩ <;>
    simp [check_collisions, hcoins.1, hcoins.2.1, hcoins.2.2.1, hcoins.2.2.2.2.1,
      hcoins.2.2.2.2.2.1, hcoins.2.2.2.2.2.2.1, hlives,
      hobs.1, hobs.2.1, hobs.2.2.1, hobs.2.2.2.1, hobs.2.2.2.2]

/-- `_check_collisions` keeps the state live. -/
theorem check_collisions_live (e : GameEngine) (h : LiveState e.state) :
    LiveState (check_collisions e).state := by
  have hco := resolveCoins_fst (player_rect e.player)
    (resolveObstacles (player_rect e.player) e.player e.state e.obstacles).1 e.coins
  have hro := resolveObstacles_live (player_rect e.player) e.player e.state e.obstacles h
  intro hgo
  have : (check_collisions e).state.game_over =
      (resolveObstacles (player_rect e.player) e.player e.state e.obstacles).1.game_over := by
    simp [check_collisions, hco.2.2.2.1]
  rw [this] at hgo
  have := hro hgo
  simpa [check_collisions, hco.2.2.1] using this

/-- `move_player` never changes the `GameState`. -/
theorem move_player_state (e : GameEngine) (d : String) :
    (move_player e d).state = e.state := by
  simp only [move_player]
  split_ifs <;> rfl

/-- `pause_game` only toggles `paused`. -/
theorem pause_game_state (e : GameEngine) :
    (pause_game e).state = { e.state with paused := !e.state.paused } := rfl

/-- Truncation of a non-negative rational is non-negative. -/
theorem pyTrunc_nonneg (q : ℚ) (h : 0 ≤ q) : 0 ≤ pyTrunc q :=
  Int.tdiv_nonneg (Rat.num_nonneg.mpr h) (Int.ofNat_nonneg _)

/-- `_check_collisions` leaves `distance` unchanged. -/
theorem check_collisions_distance (e : GameEngine) :
    (check_collisions e).state.distance = e.state.distance :=
  (check_collisions_state e).2.2.2.1

/-- `_check_collisions` leaves the speed multiplier unchanged. -/
theorem check_collisions_mult (e : GameEngine) :
    (check_collisions e).state.speed_multiplier = e.state.speed_multiplier :=
  (check_collisions_state e).2.2.2.2.1

/-- `_check_collisions` leaves the pause flag unchanged. -/
theorem check_collisions_paused (e : GameEngine) :
    (check_collisions e).state.paused = e.state.paused :=
  (check_collisions_state e).2.2.2.2.2

/-- A tick on a running engine: the new distance, the recomputed speed
multiplier, and the unchanged pause flag. -/
theorem update_game_core (e : GameEngine) (inp : TickInput)
    (h : (e.state.game_over || e.state.paused) = false) :
    (update_game e inp).state.distance =
      e.state.distance + pyTrunc (100 * inp.dt * e.state.speed_multiplier) ∧
    (update_game e inp).state.speed_multiplier =
      min 3 (1 + ((e.state.distance +
        pyTrunc (100 * inp.dt * e.state.speed_multiplier) : ℤ) : ℚ) / 10000) ∧
    (update_game e inp).state.paused = e.state.paused := by
  simp only [update_game, h, Bool.false_eq_true, if_false]
  simp only [cleanup_objects_state, check_collisions_distance,
    check_collisions_mult, check_collisions_paused, update_coins_state,
    update_obstacles_state, spawn_coins_state, spawn_obstacles_state,
    update_player_actions_state]
  exact ⟨trivial, trivial, trivial⟩

/-- A tick keeps the state live. -/
theorem update_game_live (e : GameEngine) (inp : TickInput)
    (h : LiveState e.state) : LiveState (update_game e inp).state := by
  by_cases hg : (e.state.game_over || e.state.paused) = true
  · simpa [update_game, hg] using h
  · have hg' : (e.state.game_over || e.state.paused) = false := by
      simpa using hg
    simp only [update_game, hg', Bool.false_eq_true, if_false,
      cleanup_objects_state]
    apply check_collisions_live
    simp only [update_coins_state, update_obstacles_state, spawn_coins_state,
      spawn_obstacles_state, update_player_actions_state]
    simp only [LiveState] at h ⊢
    exact h

/-- Every engine operation keeps the state live. -/
theorem step_live (e : GameEngine) (op : Op) (h : LiveState e.state) :
    LiveState (step e op).state := by
  cases op with
  | tick inp => exact update_game_live e inp h
  | move d => rw [step, move_player_state]; exact h
  | pause =>
    simp only [step, pause_game_state, LiveState] at h ⊢
    exact h
  | reset =>
    simp only [step, reset_game, freshEngine, LiveState]
    intro
    norm_num

/-- Any run of engine operations keeps the state live. -/
theorem run_live (e : GameEngine) (ops : List Op) (h : LiveState e.state) :
    LiveState (run e ops).state := by
  induction ops generalizing e with
  | nil => exact h
  | cons op rest ih => exact ih (step e op) (step_live e op h)

/-- A freshly constructed engine is live. -/
theorem mkEngine_live (stored : Option ℤ) : LiveState (mkEngine stored).state := by
  simp only [mkEngine, load_high_score, freshEngine, LiveState]
  intro
  norm_num

/-- Under the difficulty invariant the speed multiplier is at least 1. -/
theorem speedInv_one_le (st : GameState) (h : SpeedInv st) :
    1 ≤ st.speed_multiplier := by
  rw [h.1]
  refine le_min (by norm_num) ?_
  have : (0 : ℚ) ≤ (st.distance : ℚ) / 10000 := by
    apply div_nonneg _ (by norm_num)
    exact_mod_cast h.2
  linarith

/-- A tick with a non-negative duration preserves the difficulty invariant
and never decreases the speed multiplier. -/
theorem update_game_speedInv (e : GameEngine) (inp : TickInput)
    (hdt : 0 ≤ inp.dt) (hs : SpeedInv e.state) :
    SpeedInv (update_game e inp).state ∧
    e.state.speed_multiplier ≤ (update_game e inp).state.speed_multiplier := by
  by_cases hg : (e.state.game_over || e.state.paused) = true
  · have : update_game e inp = e := by simp [update_game, hg]
    rw [this]
    exact ⟨hs, le_refl _⟩
  · have hg' : (e.state.game_over || e.state.paused) = false := by simpa using hg
    obtain ⟨hd, hm, -⟩ := update_game_core e inp hg'
    have hmul1 : 1 ≤ e.state.speed_multiplier := speedInv_one_le e.state hs
    have htr : 0 ≤ pyTrunc (100 * inp.dt * e.state.speed_multiplier) := by
      apply pyTrunc_nonneg
      have h100 : (0 : ℚ) ≤ 100 * inp.dt := by linarith
      exact mul_nonneg h100 (by linarith)
    constructor
    · constructor
      · rw [hm, hd]
      · rw [hd]
        have := hs.2
        omega
    · rw [hm, hs.1]
      apply min_le_min (le_refl _)
      have hle : (e.state.distance : ℚ) ≤
          ((e.state.distance + pyTrunc (100 * inp.dt * e.state.speed_multiplier) : ℤ) : ℚ) := by
        have hz : e.state.distance ≤
            e.state.distance + pyTrunc (100 * inp.dt * e.state.speed_multiplier) := by
          omega
        exact_mod_cast hz
      gcongr
      rw [← hs.1]
      omega

/-- Every valid operation preserves the difficulty invariant. -/
theorem step_speedInv (e : GameEngine) (op : Op) (hv : validOp op = true)
    (hs : SpeedInv e.state) : SpeedInv (step e op).state := by
  cases op with
  | tick inp =>
    have hdt : 0 ≤ inp.dt := by simpa [validOp] using hv
    exact (update_game_speedInv e inp hdt hs).1
  | move d => rw [step, move_player_state]; exact hs
  | pause =>
    obtain ⟨h1, h2⟩ := hs
    exact ⟨h1, h2⟩
  | reset =>
    constructor
    · show (1 : ℚ) = min 3 (1 + (((0 : ℤ) : ℚ)) / 10000)
      norm_num
    · norm_num [step, reset_game, freshEngine]

/-- No valid operation other than `reset` decreases the speed multiplier. -/
theorem step_mult_mono (e : GameEngine) (op : Op) (hv : validOp op = true)
    (hn : notReset op = true) (hs : SpeedInv e.state) :
    e.state.speed_multiplier ≤ (step e op).state.speed_multiplier := by
  cases op with
  | tick inp =>
    have hdt : 0 ≤ inp.dt := by simpa [validOp] using hv
    exact (update_game_speedInv e inp hdt hs).2
  | move d => rw [step, move_player_state]
  | pause => exact le_refl _
  | reset => simp [notReset] at hn

/-- Valid runs preserve the difficulty invariant. -/
theorem run_speedInv (e : GameEngine) (ops : List Op)
    (hv : ops.all validOp = true) (hs : SpeedInv e.state) :
    SpeedInv (run e ops).state := by
  induction ops generalizing e with
  | nil => exact hs
  | cons op rest ih =>
    rw [List.all_cons, Bool.and_eq_true] at hv
    exact ih (step e op) hv.2 (step_speedInv e op hv.1 hs)

/-- Over a valid run without `reset`, the speed multiplier never decreases. -/
theorem run_mult_mono (e : GameEngine) (ops : List Op)
    (hv : ops.all validOp = true) (hn : ops.all notReset = true)
    (hs : SpeedInv e.state) :
    e.state.speed_multiplier ≤ (run e ops).state.speed_multiplier := by
  induction ops generalizing e with
  | nil => exact le_refl _
  | cons op rest ih =>
    rw [List.all_cons, Bool.and_eq_true] at hv hn
    exact le_trans (step_mult_mono e op hv.1 hn.1 hs)
      (ih (step e op) hv.2 hn.2 (step_speedInv e op hv.1 hs))

/-- A freshly constructed engine satisfies the difficulty invariant. -/
theorem mkEngine_speedInv (stored : Option ℤ) : SpeedInv (mkEngine stored).state := by
  constructor
  · show (1 : ℚ) = min 3 (1 + (((0 : ℤ) : ℚ)) / 10000)
    norm_num
  · norm_num [mkEngine, load_high_score, freshEngine]

/-- Rising phase of the jump arc (`jump_timer + dt < 0.5`). -/
theorem update_player_actions_jump_rise (e : GameEngine) (dt : ℚ)
    (hj : e.player.jumping = true) (h1 : e.jump_timer + dt < 0.5) :
    (update_player_actions e dt).player.jumping = true ∧
    (update_player_actions e dt).player.jump_height =
      JUMP_HEIGHT * ((e.jump_timer + dt) / 0.5) ∧
    (update_player_actions e dt).jump_timer = e.jump_timer + dt := by
  simp only [update_player_actions, hj, if_true, h1]
  split_ifs <;> simp_all

/-- Falling phase of the jump arc (`0.5 ≤ jump_timer + dt < 1.0`). -/
theorem update_player_actions_jump_fall (e : GameEngine) (dt : ℚ)
    (hj : e.player.jumping = true) (h1 : ¬(e.jump_timer + dt < 0.5))
    (h2 : e.jump_timer + dt < 1.0) :
    (update_player_actions e dt).player.jumping = true ∧
    (update_player_actions e dt).player.jump_height =
      JUMP_HEIGHT * (1 - (e.jump_timer + dt - 0.5) / 0.5) ∧
    (update_player_actions e dt).jump_timer = e.jump_timer + dt := by
  simp only [update_player_actions, hj, if_true, h1, h2]
  split_ifs <;> simp_all

/-- Landing (`jump_timer + dt ≥ 1.0`). -/
theorem update_player_actions_jump_land (e : GameEngine) (dt : ℚ)
    (hj : e.player.jumping = true) (h1 : ¬(e.jump_timer + dt < 0.5))
    (h2 : ¬(e.jump_timer + dt < 1.0)) :
    (update_player_actions e dt).player.jumping = false ∧
    (update_player_actions e dt).player.jump_height = 0 ∧
    (update_player_actions e dt).jump_timer = 0 := by
  simp only [update_player_actions, hj, if_true, h1, h2]
  split_ifs <;> simp_all

/-- The stages of a tick after the player-action update do not touch the
player or the jump timer: a tick's effect on them is that of
`_update_player_actions` on an engine with the same player and timers. -/
theorem update_game_player_after (e : GameEngine) (inp : TickInput)
    (h : (e.state.game_over || e.state.paused) = false) :
    ∃ e' : GameEngine,
      (update_game e inp).player = (update_player_actions e' inp.dt).player ∧
      (update_game e inp).jump_timer =
        (update_player_actions e' inp.dt).jump_timer ∧
      e'.player = e.player ∧ e'.jump_timer = e.jump_timer := by
  refine ⟨{ e with state := { e.state with
    distance := e.state.distance + pyTrunc (100 * inp.dt * e.state.speed_multiplier),
    score := e.state.score + pyTrunc (10 * inp.dt * e.state.speed_multiplier),
    speed_multiplier := min 3 (1 + ((e.state.distance +
      pyTrunc (100 * inp.dt * e.state.speed_multiplier) : ℤ) : ℚ) / 10000) } },
    ?_, ?_, rfl, rfl⟩ <;>
  · simp only [update_game, h, Bool.false_eq_true, if_false]
    simp only [cleanup_objects_player, check_collisions_player,
      update_coins_player, update_obstacles_player, spawn_coins_player,
      spawn_obstacles_player, cleanup_objects_timers, check_collisions_timers,
      update_coins_timers, update_obstacles_timers, spawn_coins_timers,
      spawn_obstacles_timers]

/-- `update_game` early-returns while paused or game over. -/
theorem update_game_noop (e : GameEngine) (inp : TickInput)
    (h : (e.state.game_over || e.state.paused) = true) :
    update_game e inp = e := by
  simp [update_game, h]

/-- `move_player` early-returns while paused or game over. -/
theorem move_player_noop (e : GameEngine) (d : String)
    (h : (e.state.game_over || e.state.paused) = true) :
    move_player e d = e := by
  simp [move_player, h]

/-- `move("up")` on a running engine with a grounded player starts the jump
and zeroes the jump timer. -/
theorem move_up_starts_jump (e : GameEngine) (hgo : e.state.game_over = false)
    (hp : e.state.paused = false) (hnj : e.player.jumping = false) :
    (move_player e "up").player.jumping = true ∧
    (move_player e "up").jump_timer = 0 := by
  have hor : (e.state.game_over || e.state.paused) = false := by
    rw [hgo, hp]; rfl
  simp only [move_player, hor, Bool.false_eq_true, if_false]
  rw [if_neg (by simp), if_neg (by simp), if_pos ⟨by trivial, hnj⟩]
  exact ⟨rfl, rfl⟩

/-! ## Claims -/

/-- C1: the spec says `reset()` preserves `highScore`.  The code does not:
`reset_game` replaces the whole `GameState` with dataclass defaults, and the
default `high_score` is 0; `load_high_score` runs only in `__init__`.  After
the four-pit run ends the game with `high_score = 14`, `reset_game` drops the
in-memory high score to 0 — and it does so from every engine state. -/
theorem reset_discards_high_score :
    (run (mkEngine none) fourPitTrace).state.high_score = 14 ∧
    (reset_game (run (mkEngine none) fourPitTrace)).state.high_score = 0 ∧
    ∀ e : GameEngine, (reset_game e).state.high_score = 0 := by
  refine ⟨?_, rfl, fun _ => rfl⟩
  with_unfolding_all decide

/-- C2 (counterexample): a state reachable from the initial engine by valid
operations (every tick duration non-negative) in which `lives = -1`: four
overlapping pit obstacles are resolved in a single tick and the collision
loop keeps decrementing after `game_over` is raised. -/
theorem lives_below_zero_reachable :
    fourPitTrace.all validOp = true ∧
    (run (mkEngine none) fourPitTrace).state.lives = -1 := by
  with_unfolding_all decide

/-- C2 (amended): in every reachable state that is not game over `lives ≥ 1`
(hence never below 0 while the game is on), and a hit resolved from a live
state raises `game_over` exactly when it brings `lives` from 1 to 0; only
further hits inside the very tick that raised `game_over` can push `lives`
below 0. -/
theorem lives_invariant (stored : Option ℤ) (ops : List Op)
    (_hv : ops.all validOp = true) :
    ((run (mkEngine stored) ops).state.game_over = false →
      1 ≤ (run (mkEngine stored) ops).state.lives) ∧
    ∀ st : GameState, st.game_over = false → 1 ≤ st.lives →
      (((handle_collision st).game_over = true ↔ st.lives = 1) ∧
       (st.lives = 1 → (handle_collision st).lives = 0)) := by
  constructor
  · exact run_live (mkEngine stored) ops (mkEngine_live stored)
  · intro st hgo hl
    constructor
    · simp only [handle_collision, save_high_score]
      split_ifs with h1 h2
      all_goals simp_all
      all_goals omega
    · intro h1
      simp only [handle_collision, save_high_score]
      split_ifs with g1 g2
      all_goals simp_all

/-- C2 (amended) witness. -/
theorem lives_invariant_witness :
    (1 : ℤ) ≤ (run (mkEngine none) [Op.pause]).state.lives ∧
    (handle_collision { lives := 1 }).game_over = true := by
  have h := lives_invariant none [Op.pause] (by with_unfolding_all decide)
  constructor
  · exact h.1 (by with_unfolding_all decide)
  · exact (h.2 { lives := 1 } (by with_unfolding_all decide)
      (by with_unfolding_all decide)).1.mpr (by with_unfolding_all decide)

/-- C3 (counterexample): `coinTrace` collects a coin on its second tick; at
the end of the third tick — the tick following the resolution — the collected
coin is still in the engine's coin storage, because the cleanup pass removes
entities only once `y ≥ 600`. -/
theorem collected_coin_not_swept :
    coinTrace.all validOp = true ∧
    ((run (mkEngine none) (coinTrace.take 2)).coins.any fun c => c.collected) = true ∧
    ((run (mkEngine none) coinTrace).coins.any fun c => c.collected) = true := by
  with_unfolding_all decide

/-- C3 (amended): the cleanup pass removes entities solely by position —
after any tick of a running engine every stored obstacle and coin has
`y < 600`; resolution removes nothing (`_check_collisions` preserves both
collection lengths); the render snapshot is what hides deactivated obstacles
and collected coins. -/
theorem cleanup_by_position_only (e : GameEngine) (inp : TickInput) :
    (e.state.game_over = false → e.state.paused = false →
      (∀ o ∈ (update_game e inp).obstacles, o.position.y < 600) ∧
      (∀ c ∈ (update_game e inp).coins, c.position.y < 600)) ∧
    (check_collisions e).obstacles.length = e.obstacles.length ∧
    (check_collisions e).coins.length = e.coins.length ∧
    (get_game_objects e).obstacles = e.obstacles.filter (fun o => o.active) ∧
    (get_game_objects e).coins = e.coins.filter (fun c => !c.collected) := by
  refine ⟨?_, ?_, ?_, rfl, rfl⟩
  · intro hgo hp
    have hor : (e.state.game_over || e.state.paused) = false := by
      rw [hgo, hp]; rfl
    simp only [update_game, hor, Bool.false_eq_true, if_false]
    constructor
    · intro o ho
      simp only [cleanup_objects, List.mem_filter] at ho
      exact of_decide_eq_true ho.2
    · intro c hc
      simp only [cleanup_objects, List.mem_filter] at hc
      exact of_decide_eq_true hc.2
  · rw [check_collisions_obstacles]
    exact List.length_map _ _
  · rw [check_collisions_coins]
    exact List.length_map _ _

/-- C3 (amended) witness. -/
theorem cleanup_by_position_only_witness :
    pitObstacle.position.y < 600 ∧
    (check_collisions freshEngine).obstacles.length =
      freshEngine.obstacles.length := by
  have h := cleanup_by_position_only freshEngine ⟨0, some (1, 2), none⟩
  refine ⟨?_, h.2.1⟩
  exact (h.1 rfl rfl).1 pitObstacle (by with_unfolding_all decide)

/-- C4: in a collision pass, every active obstacle overlapping the player
rectangle is deactivated (hit or not), inactive obstacles are untouched, and
`lives` drops by exactly one per hit, a hit being an active overlapping
obstacle of type `pit` with a non-jumping player, or of type `tree`/`rock`
with a non-sliding player.  Deactivation plus the `active` requirement in the
hit test gives at most one life loss per obstacle. -/
theorem obstacle_collision_spec (e : GameEngine) :
    (check_collisions e).obstacles =
      e.obstacles.map (fun o =>
        if o.active && rects_collide (player_rect e.player) (obstacle_rect o)
        then { o with active := false } else o) ∧
    (check_collisions e).state.lives =
      e.state.lives - e.obstacles.countP (fun o =>
        o.active && rects_collide (player_rect e.player) (obstacle_rect o) &&
          ((o.obstacle_type == "pit" && !e.player.jumping) ||
           ((o.obstacle_type == "tree" || o.obstacle_type == "rock") &&
             !e.player.sliding))) := by
  refine ⟨check_collisions_obstacles e, ?_⟩
  have h := (check_collisions_state e).1
  simpa [obstacleHit] using h

/-- C5: while paused or game over, `tick` and `move` leave the entire engine
(state, player, collections, timers) unchanged. -/
theorem paused_or_over_noop (e : GameEngine) (inp : TickInput) (d : String)
    (h : e.state.paused = true ∨ e.state.game_over = true) :
    update_game e inp = e ∧ move_player e d = e := by
  have hb : (e.state.game_over || e.state.paused) = true := by
    rcases h with h | h <;> simp [h]
  exact ⟨update_game_noop e inp hb, move_player_noop e d hb⟩

/-- C5 witness. -/
theorem paused_or_over_noop_witness :
    update_game (pause_game (mkEngine none)) ⟨1, none, none⟩ =
      pause_game (mkEngine none) ∧
    move_player (pause_game (mkEngine none)) "left" =
      pause_game (mkEngine none) :=
  paused_or_over_noop _ _ _ (Or.inl (by with_unfolding_all decide))

/-- C6: `move("up")` on a running engine with a grounded player starts the
jump with `jump_timer = 0`; while jumping, a tick puts the jump height on the
symmetric triangular profile of the accumulated timer `t = jump_timer + dt`:
`80 * (t/0.5)` for `t < 0.5`, `80 * (1 - (t-0.5)/0.5)` for `0.5 ≤ t < 1.0`
(value 80 at `t = 0.5`), and for `t ≥ 1.0` the tick lands the player:
`jumping = false`, `jump_height = 0`, `jump_timer = 0`. -/
theorem jump_profile_spec (e : GameEngine) (inp : TickInput)
    (hgo : e.state.game_over = false) (hp : e.state.paused = false) :
    (e.player.jumping = false →
      (move_player e "up").player.jumping = true ∧
      (move_player e "up").jump_timer = 0) ∧
    (e.player.jumping = true →
      (e.jump_timer + inp.dt < 0.5 →
        (update_game e inp).player.jumping = true ∧
        (update_game e inp).player.jump_height =
          JUMP_HEIGHT * ((e.jump_timer + inp.dt) / 0.5) ∧
        (update_game e inp).jump_timer = e.jump_timer + inp.dt) ∧
      (0.5 ≤ e.jump_timer + inp.dt → e.jump_timer + inp.dt < 1.0 →
        (update_game e inp).player.jumping = true ∧
        (update_game e inp).player.jump_height =
          JUMP_HEIGHT * (1 - (e.jump_timer + inp.dt - 0.5) / 0.5) ∧
        (update_game e inp).jump_timer = e.jump_timer + inp.dt) ∧
      (e.jump_timer + inp.dt = 0.5 →
        (update_game e inp).player.jump_height = JUMP_HEIGHT) ∧
      (1.0 ≤ e.jump_timer + inp.dt →
        (update_game e inp).player.jumping = false ∧
        (update_game e inp).player.jump_height = 0 ∧
        (update_game e inp).jump_timer = 0)) := by
  have hor : (e.state.game_over || e.state.paused) = false := by
    rw [hgo, hp]; rfl
  obtain ⟨e2, hpl, htm, hpe, hte⟩ := update_game_player_after e inp hor
  constructor
  · intro hnj
    exact move_up_starts_jump e hgo hp hnj
  · intro hj
    have hj2 : e2.player.jumping = true := by rw [hpe]; exact hj
    refine ⟨?_, ?_, ?_, ?_⟩
    · intro h1
      have hr := update_player_actions_jump_rise e2 inp.dt hj2 (by rw [hte]; exact h1)
      rw [hte] at hr
      exact ⟨by rw [hpl]; exact hr.1, by rw [hpl]; exact hr.2.1,
        by rw [htm]; exact hr.2.2⟩
    · intro h05 h1
      have hf := update_player_actions_jump_fall e2 inp.dt hj2
        (by rw [hte]; exact not_lt.mpr h05) (by rw [hte]; exact h1)
      rw [hte] at hf
      exact ⟨by rw [hpl]; exact hf.1, by rw [hpl]; exact hf.2.1,
        by rw [htm]; exact hf.2.2⟩
    · intro heq
      have hf := update_player_actions_jump_fall e2 inp.dt hj2
        (by rw [hte]; exact not_lt.mpr (le_of_eq heq.symm))
        (by rw [hte, heq]; norm_num)
      rw [hte] at hf
      rw [hpl, hf.2.1, heq]
      norm_num
    · intro hge
      have hl := update_player_actions_jump_land e2 inp.dt hj2
        (by rw [hte]; exact not_lt.mpr (by linarith))
        (by rw [hte]; exact not_lt.mpr hge)
      exact ⟨by rw [hpl]; exact hl.1, by rw [hpl]; exact hl.2.1,
        by rw [htm]; exact hl.2.2⟩

/-- C6 witness. -/
theorem jump_profile_spec_witness :
    (update_game jumpingEngine ⟨0.25, none, none⟩).player.jumping = true ∧
    (update_game jumpingEngine ⟨0.25, none, none⟩).player.jump_height =
      JUMP_HEIGHT * ((jumpingEngine.jump_timer + 0.25) / 0.5) ∧
    (update_game jumpingEngine ⟨0.25, none, none⟩).jump_timer =
      jumpingEngine.jump_timer + 0.25 :=
  ((jump_profile_spec jumpingEngine ⟨0.25, none, none⟩ rfl rfl).2 rfl).1
    (by with_unfolding_all decide)

/-- C7: in a collision pass, exactly the uncollected coins overlapping the
player rectangle are marked collected, each adding 1 to `coinsCollected` and
50 to `score`; already-collected coins are untouched and contribute nothing
on any pass. -/
theorem coin_collection_spec (e : GameEngine) :
    (check_collisions e).coins =
      e.coins.map (fun c =>
        if !c.collected && rects_collide (player_rect e.player) (coin_rect c)
        then { c with collected := true } else c) ∧
    (check_collisions e).state.coins_collected =
      e.state.coins_collected + e.coins.countP (fun c =>
        !c.collected && rects_collide (player_rect e.player) (coin_rect c)) ∧
    (check_collisions e).state.score =
      e.state.score + 50 * e.coins.countP (fun c =>
        !c.collected && rects_collide (player_rect e.player) (coin_rect c)) := by
  refine ⟨?_, ?_, ?_⟩
  · have h := check_collisions_coins e
    simpa [coinHit] using h
  · have h := (check_collisions_state e).2.1
    simpa [coinHit] using h
  · have h := (check_collisions_state e).2.2.1
    simpa [coinHit] using h

/-- C8: in every state reachable by valid operations, the speed multiplier
equals `clamp(1 + distance/10000, 1.0, 3.0)` (the code computes
`min(3.0, 1 + distance/10000)` and the distance is provably non-negative, so
the lower clamp is redundant); it is 1 at distance 0, 1.5 at 5000, 3 from
20000 on, and it never decreases over further valid operations that do not
include a reset. -/
theorem speed_multiplier_spec (stored : Option ℤ) (ops more : List Op)
    (hv : ops.all validOp = true) (hv2 : more.all validOp = true)
    (hn : more.all notReset = true) :
    (run (mkEngine stored) ops).state.speed_multiplier =
      min 3 (max 1 (1 + ((run (mkEngine stored) ops).state.distance : ℚ) / 10000)) ∧
    ((run (mkEngine stored) ops).state.distance = 0 →
      (run (mkEngine stored) ops).state.speed_multiplier = 1) ∧
    ((run (mkEngine stored) ops).state.distance = 5000 →
      (run (mkEngine stored) ops).state.speed_multiplier = 3 / 2) ∧
    (20000 ≤ (run (mkEngine stored) ops).state.distance →
      (run (mkEngine stored) ops).state.speed_multiplier = 3) ∧
    (run (mkEngine stored) ops).state.speed_multiplier ≤
      (run (run (mkEngine stored) ops) more).state.speed_multiplier := by
  have hs := run_speedInv (mkEngine stored) ops hv (mkEngine_speedInv stored)
  have hd0 : (0 : ℚ) ≤ ((run (mkEngine stored) ops).state.distance : ℚ) / 10000 := by
    apply div_nonneg _ (by norm_num)
    exact_mod_cast hs.2
  refine ⟨?_, ?_, ?_, ?_, ?_⟩
  · rw [hs.1, max_eq_right (by linarith)]
  · intro h0
    rw [hs.1, h0]
    norm_num
  · intro h5
    rw [hs.1, h5]
    rw [min_eq_right (by push_cast; norm_num)]
    push_cast
    norm_num
  · intro h20
    rw [hs.1]
    have h20q : (20000 : ℚ) ≤ ((run (mkEngine stored) ops).state.distance : ℚ) := by
      exact_mod_cast h20
    rw [min_eq_left ?_]
    rw [le_div_iff₀ (by norm_num : (0:ℚ) < 10000)] at *
    nlinarith
  · exact run_mult_mono _ more hv2 hn hs

/-- C8 witness. -/
theorem speed_multiplier_spec_witness :
    (run (mkEngine none) []).state.speed_multiplier =
      min 3 (max 1 (1 + ((run (mkEngine none) []).state.distance : ℚ) / 10000)) ∧
    (run (mkEngine none) []).state.speed_multiplier ≤
      (run (run (mkEngine none) []) [Op.pause]).state.speed_multiplier := by
  have h := speed_multiplier_spec none [] [Op.pause]
    (by with_unfolding_all decide) (by with_unfolding_all decide)
    (by with_unfolding_all decide)
  exact ⟨h.1, h.2.2.2.2⟩

/-- C9: a direction outside `left`/`right`/`up`/`down` leaves the whole
engine unchanged (and raises nothing: the embedding is total). -/
theorem invalid_direction_noop (e : GameEngine) (d : String)
    (h : ¬(d = "left" ∨ d = "right" ∨ d = "up" ∨ d = "down")) :
    move_player e d = e := by
  push_neg at h
  obtain ⟨h1, h2, h3, h4⟩ := h
  simp only [move_player]
  split_ifs <;> simp_all

/-- C9 witness. -/
theorem invalid_direction_noop_witness :
    move_player (mkEngine none) "jump" = mkEngine none :=
  invalid_direction_noop _ _ (by with_unfolding_all decide)

/-- C10: `pause()` toggles the pause flag from every engine state (game over
included), changes nothing else, and is never a no-op. -/
theorem pause_always_toggles (e : GameEngine) :
    pause_game e = { e with state := { e.state with paused := !e.state.paused } } ∧
    pause_game e ≠ e := by
  refine ⟨rfl, ?_⟩
  intro hcontra
  have h := congrArg (fun x => x.state.paused) hcontra
  simp [pause_game] at h
